import Mathlib

/-!
Verification of the event-relay core of `servidor-breb` (src/index.js).

The development shallowly embeds the webhook handler `app.post('/api/v1/notify')`,
the SSE fan-out `sendEventToClients`, and the dashboard session registry of
`app.get('/events')` as pure Lean functions.  Stateful pieces (the Supabase
`devices` and `transactions` tables, the global `clients` array, the MQTT client
handle) become explicit inputs; the observable side effects of one request
(HTTP status and body, ledger after the request, SSE frames written, MQTT
publishes) become the explicit output `NotifyResult`.
-/

set_option autoImplicit false

namespace Breb

/-- A row of the `devices` table: `serial_number` (unique) and owning `user_id`. -/
structure Device where
  serial_number : String
  user_id : String
  deriving DecidableEq, Repr

/-- A row of the `transactions` table, as inserted by the webhook handler. -/
structure TrxRecord where
  user_id : String
  device_serial_number : String
  amount : Int
  request_id : String
  status : String
  deriving DecidableEq, Repr

/-- An entry of the global `clients` array: `\x7b id: clientId, userId, res \x7d`.
The SSE response stream `res` is identified by the entry itself; what got
written to it is reported in `NotifyResult.pushes`. -/
structure Client where
  id : Nat
  userId : String
  deriving DecidableEq, Repr

/-- One observable MQTT publish: `mqttClient.publish(topic, message, \x7b qos: 1 \x7d, cb)`. -/
structure PublishMsg where
  topic : String
  payload : String
  qos : Nat
  deriving DecidableEq, Repr

/-- Error reported by the storage layer on `supabase.from('transactions').insert`:
either the unique constraint on `request_id` fired (duplicate) or some other
storage failure occurred. -/
inductive TrxError where
  | duplicate
  | storage
  deriving DecidableEq, Repr

/-- JavaScript `a || b` for an optional string `a`: `none` models a missing or
nullish field and the empty string is the only falsy non-null string. -/
def jsOr (v : Option String) (fb : String) : String :=
  match v with
  | none => fb
  | some s => if s = "" then fb else s

/-- Minimal JSON escaping of one character as done by `JSON.stringify`
(the characters relevant here: quote, backslash, newline). -/
def jsonEscapeChar (c : Char) : String :=
  if c = '"' then "\\\""
  else if c = '\\' then "\\\\"
  else if c = '\n' then "\\n"
  else String.singleton c

/-- JSON escaping of a string body. -/
def jsonEscape (s : String) : String :=
  String.join (s.toList.map jsonEscapeChar)

/-- A JSON string literal. -/
def jsonString (s : String) : String :=
  "\"" ++ jsonEscape s ++ "\""

/-- Serialization of the `dashboardData` object built by the handler:
`JSON.stringify(\x7b id, device, amount, status, timestamp \x7d)` with keys in
insertion order; `amount` is a JSON number, the rest are strings. -/
def dashboardJson (id device : String) (amount : Int) (status timestamp : String) : String :=
  "\x7b\"id\":" ++ jsonString id ++
  ",\"device\":" ++ jsonString device ++
  ",\"amount\":" ++ toString amount ++
  ",\"status\":" ++ jsonString status ++
  ",\"timestamp\":" ++ jsonString timestamp ++ "\x7d"

/-- Serialization of the MQTT message body:
`JSON.stringify(\x7b request_id: transactionId, money: String(amount) \x7d)`. -/
def mqttMessage (requestId : String) (amount : Int) : String :=
  "\x7b\"request_id\":" ++ jsonString requestId ++
  ",\"money\":" ++ jsonString (toString amount) ++ "\x7d"

/-- The SSE frame written per matching client:
`res.write('data: ' + JSON.stringify(data) + '\n\n')`. -/
def sseFrame (data : String) : String :=
  "data: " ++ data ++ "\n\n"

/-- `sendEventToClients(userId, data)` over the global `clients` list: writes one
SSE frame to every client whose `userId` matches, in list order.  Result: the
`(client.id, frame)` writes performed.  This is the embedding of the source
function under the assumption that every `res.write` succeeds. -/
def sendEventToClients (userId data : String) (clients : List Client) : List (Nat × String) :=
  clients.filterMap fun c =>
    if c.userId = userId then some (c.id, sseFrame data) else none

/-- A client whose `res.write` may throw (connection gone but unregister not yet
processed).  Used to study the error behaviour of `sendEventToClients`. -/
structure ClientF where
  id : Nat
  userId : String
  writeFails : Bool
  deriving DecidableEq, Repr

/-- `sendEventToClients` with fallible writes.  The source iterates with
`clients.forEach(...)` and contains no try/catch: a throwing `res.write` aborts
the iteration and the exception escapes the function.  Result: the writes
performed before the abort, and whether the call terminated by an uncaught
exception. -/
def sendEventToClientsF (userId data : String) : List ClientF → List (Nat × String) × Bool
  | [] => ([], false)
  | c :: rest =>
    if c.userId = userId then
      if c.writeFails then ([], true)
      else
        let r := sendEventToClientsF userId data rest
        ((c.id, sseFrame data) :: r.1, r.2)
    else sendEventToClientsF userId data rest

/-- Point lookup of `supabase.from('devices').select('user_id').eq('serial_number', s).single()`:
`some user_id` when exactly the matching row exists, `none` when no row matches
(PGRST `single()` reports an error, and `deviceOwner` is null). -/
def lookupDevice (devices : List Device) (serial : String) : Option String :=
  (devices.find? fun d => d.serial_number == serial).map (·.user_id)

/-- Insert into `transactions` under the unique constraint on `request_id`.
A duplicate key yields an error and no new row; any other storage failure
(modelled by the `storageFails` flag) yields an error and no new row; otherwise
the row is appended. -/
def insertTransaction (ledger : List TrxRecord) (rec : TrxRecord) (storageFails : Bool) :
    List TrxRecord × Option TrxError :=
  if ledger.any fun r => r.request_id == rec.request_id then (ledger, some .duplicate)
  else if storageFails then (ledger, some .storage)
  else (ledger ++ [rec], none)

/-- Everything one call of the webhook handler reads: the parsed request body
(`event_type`, `data.id`, `data.amount`, `data.metadata?.terminal_id`), the
state of the two tables, whether the transaction insert would fail at the
storage layer, the registered SSE clients, the MQTT client handle
(`mqttConfigured` models `mqttClient` being defined, `mqttConnected` models
`mqttClient.connected`), the value of `new Date().getTime()` and the rendered
locale timestamp `new Date().toLocaleString('es-CO', ...)`. -/
structure NotifyInput where
  eventType : String
  dataId : Option String
  amount : Int
  terminalId : Option String
  devices : List Device
  ledger : List TrxRecord
  storageFails : Bool
  clients : List Client
  mqttConfigured : Bool
  mqttConnected : Bool
  now : Nat
  nowLocale : String
  deriving DecidableEq, Repr

/-- The observable outcome of one webhook call: HTTP status and body, the
`transactions` table afterwards, the SSE writes performed and the MQTT
publishes issued. -/
structure NotifyResult where
  status : Nat
  body : String
  ledger : List TrxRecord
  pushes : List (Nat × String)
  publishes : List PublishMsg
  deriving DecidableEq, Repr

/-- The handler `app.post('/api/v1/notify')` of src/index.js, lines 97-149.
Control flow follows the source: event-type gate, field extraction with the
`||` fallbacks, device-owner lookup (404 on failure), transaction insert whose
error is only logged (`if(trxError) console.error(...)` — processing
continues), dashboard fan-out, then conditional MQTT publish, and a final 200
acknowledgement. -/
def notify (inp : NotifyInput) : NotifyResult :=
  if inp.eventType = "transaction.completed" then
    let deviceSerialNumber := jsOr inp.terminalId "dispositivo_desconocido"
    let amount := inp.amount
    let transactionId := jsOr inp.dataId (toString inp.now)
    match lookupDevice inp.devices deviceSerialNumber with
    | none =>
      { status := 404, body := "Dispositivo no registrado.",
        ledger := inp.ledger, pushes := [], publishes := [] }
    | some userId =>
      let inserted := insertTransaction inp.ledger
        { user_id := userId, device_serial_number := deviceSerialNumber,
          amount := amount, request_id := transactionId, status := "Completada" }
        inp.storageFails
      let dashboardData := dashboardJson transactionId deviceSerialNumber amount
        "Completada" inp.nowLocale
      let pushes := sendEventToClients userId dashboardData inp.clients
      let publishes :=
        if inp.mqttConfigured && inp.mqttConnected then
          [{ topic := "/HMZN/" ++ deviceSerialNumber,
             payload := mqttMessage transactionId amount, qos := 1 }]
        else []
      { status := 200, body := "Notificación recibida.",
        ledger := inserted.1, pushes := pushes, publishes := publishes }
  else
    { status := 200, body := "Notificación recibida.",
      ledger := inp.ledger, pushes := [], publishes := [] }

/-- Registration performed by `app.get('/events')`: `const clientId = Date.now();
clients.push(\x7b id: clientId, userId: req.session.userId, res \x7d)`.  The session
handle is the wall-clock millisecond timestamp at connection time. -/
def eventsRegister (clients : List Client) (now : Nat) (userId : String) : List Client :=
  clients ++ [{ id := now, userId := userId }]

/-- Cleanup on `req.on('close')`: `clients = clients.filter(c => c.id !== clientId)`
removes every entry whose handle equals the closing connection's handle. -/
def eventsClose (clients : List Client) (clientId : Nat) : List Client :=
  clients.filter fun c => c.id != clientId

/-! Helper lemmas shared by the claim theorems. -/

theorem jsOr_falsy (v : Option String) (fb : String) (h : v = none ∨ v = some "") :
    jsOr v fb = fb := by
  rcases h with h | h <;> simp [jsOr, h]

theorem insertTransaction_fresh (ledger : List TrxRecord) (rec : TrxRecord)
    (h : ∀ r ∈ ledger, r.request_id ≠ rec.request_id) :
    insertTransaction ledger rec false = (ledger ++ [rec], none) := by
  have hany : (ledger.any fun r => r.request_id == rec.request_id) = false := by
    rw [List.any_eq_false]
    intro r hr
    simpa using h r hr
  simp [insertTransaction, hany]

theorem insertTransaction_storage_keeps_ledger (ledger : List TrxRecord) (rec : TrxRecord) :
    (insertTransaction ledger rec true).1 = ledger := by
  unfold insertTransaction
  split <;> simp

theorem notify_known_device (inp : NotifyInput) (uid : String)
    (he : inp.eventType = "transaction.completed")
    (hd : lookupDevice inp.devices (jsOr inp.terminalId "dispositivo_desconocido") = some uid) :
    notify inp =
      { status := 200, body := "Notificación recibida.",
        ledger := (insertTransaction inp.ledger
          { user_id := uid,
            device_serial_number := jsOr inp.terminalId "dispositivo_desconocido",
            amount := inp.amount,
            request_id := jsOr inp.dataId (toString inp.now),
            status := "Completada" } inp.storageFails).1,
        pushes := sendEventToClients uid
          (dashboardJson (jsOr inp.dataId (toString inp.now))
            (jsOr inp.terminalId "dispositivo_desconocido") inp.amount
            "Completada" inp.nowLocale) inp.clients,
        publishes :=
          if inp.mqttConfigured && inp.mqttConnected then
            [{ topic := "/HMZN/" ++ jsOr inp.terminalId "dispositivo_desconocido",
               payload := mqttMessage (jsOr inp.dataId (toString inp.now)) inp.amount,
               qos := 1 }]
          else [] } := by
  simp [notify, he, hd]

/-! Claim C3: unknown device. -/

/-- C3: for a `transaction.completed` event whose device identifier matches no
registered device, the handler responds 404 "Dispositivo no registrado." and
performs no side effects: the ledger is unchanged, no SSE push is written and
no MQTT publish is issued. -/
theorem notify_unknown_device_404_no_effects (inp : NotifyInput)
    (he : inp.eventType = "transaction.completed")
    (hd : lookupDevice inp.devices (jsOr inp.terminalId "dispositivo_desconocido") = none) :
    notify inp =
      { status := 404, body := "Dispositivo no registrado.",
        ledger := inp.ledger, pushes := [], publishes := [] } := by
  simp [notify, he, hd]

/-- Concrete input for the C3 witness: event for device DEV-999 that no row of
the devices table mentions. -/
def unknownDeviceInput : NotifyInput :=
  { eventType := "transaction.completed", dataId := some "tx-9", amount := 500,
    terminalId := some "DEV-999",
    devices := [{ serial_number := "DEV-001", user_id := "A1" }],
    ledger := [], storageFails := false,
    clients := [{ id := 7, userId := "A1" }],
    mqttConfigured := true, mqttConnected := true,
    now := 1000, nowLocale := "ts" }

/-- C3 witness at the DEV-999 scenario. -/
theorem notify_unknown_device_404_no_effects_witness :
    unknownDeviceInput.eventType = "transaction.completed" ∧
    lookupDevice unknownDeviceInput.devices
      (jsOr unknownDeviceInput.terminalId "dispositivo_desconocido") = none ∧
    notify unknownDeviceInput =
      { status := 404, body := "Dispositivo no registrado.",
        ledger := [], pushes := [], publishes := [] } :=
  ⟨rfl, by decide, notify_unknown_device_404_no_effects unknownDeviceInput rfl (by decide)⟩

/-! Claim C7: unrecognized event type. -/

/-- C7: any webhook event whose `event_type` differs from
`transaction.completed` is acknowledged immediately with 200 and the
confirmation body, with no ledger write, no SSE push and no MQTT publish. -/
theorem notify_unrecognized_event_ack (inp : NotifyInput)
    (he : inp.eventType ≠ "transaction.completed") :
    notify inp =
      { status := 200, body := "Notificación recibida.",
        ledger := inp.ledger, pushes := [], publishes := [] } := by
  simp [notify, he]

/-- Concrete input for the C7 witness: a `payment.failed` event. -/
def unrecognizedInput : NotifyInput :=
  { eventType := "payment.failed", dataId := some "tx-1", amount := 15000,
    terminalId := some "DEV-001",
    devices := [{ serial_number := "DEV-001", user_id := "A1" }],
    ledger := [], storageFails := false,
    clients := [{ id := 7, userId := "A1" }],
    mqttConfigured := true, mqttConnected := true,
    now := 1000, nowLocale := "ts" }

/-- C7 witness at the `payment.failed` event. -/
theorem notify_unrecognized_event_ack_witness :
    unrecognizedInput.eventType ≠ "transaction.completed" ∧
    notify unrecognizedInput =
      { status := 200, body := "Notificación recibida.",
        ledger := [], pushes := [], publishes := [] } :=
  ⟨by decide, notify_unrecognized_event_ack unrecognizedInput (by decide)⟩

/-! Claim C1: duplicate request identifier. -/

/-- Concrete input for C1: verbatim replay of the tx-1 event, with the record
`(A1, DEV-001, 15000, tx-1)` already in the ledger, one dashboard session for
A1 and the MQTT client connected. -/
def dupReplayInput : NotifyInput :=
  { eventType := "transaction.completed", dataId := some "tx-1", amount := 15000,
    terminalId := some "DEV-001",
    devices := [{ serial_number := "DEV-001", user_id := "A1" }],
    ledger := [{ user_id := "A1", device_serial_number := "DEV-001",
                 amount := 15000, request_id := "tx-1", status := "Completada" }],
    storageFails := false,
    clients := [{ id := 7, userId := "A1" }],
    mqttConfigured := true, mqttConnected := true,
    now := 1000, nowLocale := "ts" }

/-- C1: the code does not skip fan-out on a duplicate insert.  On the replayed
tx-1 event the unique constraint keeps the ledger unchanged and the request is
still acknowledged with 200, but the handler — which only logs `trxError` —
still writes the SSE frame to A1's session and still publishes to
/HMZN/DEV-001, contradicting the claimed idempotent no-op. -/
theorem notify_duplicate_still_fans_out :
    (notify dupReplayInput).ledger = dupReplayInput.ledger ∧
    (notify dupReplayInput).status = 200 ∧
    (notify dupReplayInput).pushes =
      [(7, sseFrame (dashboardJson "tx-1" "DEV-001" 15000 "Completada" "ts"))] ∧
    (notify dupReplayInput).publishes =
      [{ topic := "/HMZN/DEV-001", payload := mqttMessage "tx-1" 15000, qos := 1 }] := by
  refine ⟨?_, ?_, ?_, ?_⟩ <;> rfl

/-! Claim C2: storage-layer insert failure. -/

/-- Concrete input for the C2 counterexample: a fresh tx-2 event whose ledger
insert fails at the storage layer. -/
def storageFailInput : NotifyInput :=
  { eventType := "transaction.completed", dataId := some "tx-2", amount := 700,
    terminalId := some "DEV-001",
    devices := [{ serial_number := "DEV-001", user_id := "A1" }],
    ledger := [], storageFails := true,
    clients := [{ id := 7, userId := "A1" }],
    mqttConfigured := true, mqttConnected := true,
    now := 1000, nowLocale := "ts" }

/-- C2 counterexample: when the insert fails with a storage-layer error the
event is NOT rejected — the handler answers 200 — and fan-out still happens
(an SSE push and an MQTT publish are both issued), contrary to the claim. -/
theorem notify_storage_error_not_rejected :
    (notify storageFailInput).status = 200 ∧
    (notify storageFailInput).pushes ≠ [] ∧
    (notify storageFailInput).publishes ≠ [] := by
  refine ⟨rfl, ?_, ?_⟩ <;> decide

/-- C2 amended: when the ledger insert fails with a storage-layer error on a
`transaction.completed` event with a known device, the error is only logged:
no ledger record is created, yet the event is still acknowledged with 200 and
fan-out still occurs — the SSE push is written to every session of the owning
account and, when the MQTT client is configured and connected, the topic
publish is still issued. -/
theorem notify_storage_error_logged_only (inp : NotifyInput) (uid : String)
    (he : inp.eventType = "transaction.completed")
    (hd : lookupDevice inp.devices (jsOr inp.terminalId "dispositivo_desconocido") = some uid)
    (hs : inp.storageFails = true) :
    (notify inp).status = 200 ∧
    (notify inp).body = "Notificación recibida." ∧
    (notify inp).ledger = inp.ledger ∧
    (notify inp).pushes = sendEventToClients uid
      (dashboardJson (jsOr inp.dataId (toString inp.now))
        (jsOr inp.terminalId "dispositivo_desconocido") inp.amount
        "Completada" inp.nowLocale) inp.clients ∧
    (notify inp).publishes =
      (if inp.mqttConfigured && inp.mqttConnected then
        [{ topic := "/HMZN/" ++ jsOr inp.terminalId "dispositivo_desconocido",
           payload := mqttMessage (jsOr inp.dataId (toString inp.now)) inp.amount,
           qos := 1 }]
      else []) := by
  rw [notify_known_device inp uid he hd]
  rw [hs, insertTransaction_storage_keeps_ledger]
  exact ⟨rfl, rfl, rfl, rfl, rfl⟩

/-- C2 witness: the amended theorem applied at the storage-failure input. -/
theorem notify_storage_error_logged_only_witness :
    storageFailInput.eventType = "transaction.completed" ∧
    lookupDevice storageFailInput.devices
      (jsOr storageFailInput.terminalId "dispositivo_desconocido") = some "A1" ∧
    storageFailInput.storageFails = true ∧
    ((notify storageFailInput).status = 200 ∧
     (notify storageFailInput).body = "Notificación recibida." ∧
     (notify storageFailInput).ledger = storageFailInput.ledger ∧
     (notify storageFailInput).pushes = sendEventToClients "A1"
       (dashboardJson (jsOr storageFailInput.dataId (toString storageFailInput.now))
         (jsOr storageFailInput.terminalId "dispositivo_desconocido")
         storageFailInput.amount "Completada" storageFailInput.nowLocale)
       storageFailInput.clients ∧
     (notify storageFailInput).publishes =
       (if storageFailInput.mqttConfigured && storageFailInput.mqttConnected then
         [{ topic := "/HMZN/" ++ jsOr storageFailInput.terminalId "dispositivo_desconocido",
            payload := mqttMessage
              (jsOr storageFailInput.dataId (toString storageFailInput.now))
              storageFailInput.amount,
            qos := 1 }]
       else [])) :=
  ⟨rfl, by decide, rfl,
   notify_storage_error_logged_only storageFailInput "A1" rfl (by decide) rfl⟩

/-! Claim C4: error while writing to one channel. -/

/-- C4 counterexample: two sessions of the same account, the first one's write
throws.  The claimed behaviour — catch the error, skip only that channel,
deliver to the second — fails: `forEach` has no try/catch around `res.write`,
so the fan-out aborts with an uncaught exception and the second channel
receives nothing. -/
theorem sendEventToClientsF_error_aborts :
    sendEventToClientsF "A1" "ev"
      [{ id := 1, userId := "A1", writeFails := true },
       { id := 2, userId := "A1", writeFails := false }] = ([], true) := by
  decide

/-- C4 amended: an error raised while writing to one registered channel is not
caught.  Channels of the account that precede the failing one in the registry
still receive the event; the failing channel and every later channel receive
nothing, and the fan-out terminates by an uncaught exception. -/
theorem sendEventToClientsF_error_propagates (u d : String)
    (pre post : List ClientF) (bad : ClientF)
    (hu : bad.userId = u) (hf : bad.writeFails = true)
    (hpre : ∀ c ∈ pre, c.userId = u → c.writeFails = false) :
    sendEventToClientsF u d (pre ++ bad :: post) =
      ((pre.filterMap fun c =>
          if c.userId = u then some (c.id, sseFrame d) else none), true) := by
  induction pre with
  | nil =>
    simp [sendEventToClientsF, hu, hf]
  | cons c rest ih =>
    have hrest : ∀ x ∈ rest, x.userId = u → x.writeFails = false :=
      fun x hx => hpre x (List.mem_cons_of_mem c hx)
    have hstep := ih hrest
    by_cases h : c.userId = u
    · have hcf : c.writeFails = false := hpre c (List.mem_cons_self c rest) h
      simp only [List.cons_append, sendEventToClientsF, h, if_true, hcf,
        Bool.false_eq_true, if_false, List.filterMap_cons, List.append_eq, hstep]
    · simp only [List.cons_append, sendEventToClientsF, h, if_false,
        List.filterMap_cons, List.append_eq, hstep]

/-- C4 witness: a matching healthy channel before the failing one and a
non-matching failing channel before it; only the (1, frame) write happens and
the error escapes. -/
theorem sendEventToClientsF_error_propagates_witness :
    (ClientF.userId { id := 2, userId := "A1", writeFails := true } = "A1") ∧
    (ClientF.writeFails { id := 2, userId := "A1", writeFails := true } = true) ∧
    (∀ c ∈ [ClientF.mk 1 "A1" false, ClientF.mk 3 "B2" true],
      c.userId = "A1" → c.writeFails = false) ∧
    sendEventToClientsF "A1" "ev"
      ([ClientF.mk 1 "A1" false, ClientF.mk 3 "B2" true] ++
        ClientF.mk 2 "A1" true :: [ClientF.mk 4 "A1" false]) =
      (([ClientF.mk 1 "A1" false, ClientF.mk 3 "B2" true].filterMap fun c =>
          if c.userId = "A1" then some (c.id, sseFrame "ev") else none), true) :=
  ⟨rfl, rfl, by decide,
   sendEventToClientsF_error_propagates "A1" "ev"
     [ClientF.mk 1 "A1" false, ClientF.mk 3 "B2" true]
     [ClientF.mk 4 "A1" false] (ClientF.mk 2 "A1" true) rfl rfl (by decide)⟩

/-! Claim C5: exact fan-out to the matching sessions. -/

theorem sendEventToClients_eq_filter_map (u d : String) (cs : List Client) :
    sendEventToClients u d cs =
      (cs.filter fun c => c.userId == u).map fun c => (c.id, sseFrame d) := by
  induction cs with
  | nil => rfl
  | cons c rest ih =>
    simp only [sendEventToClients] at ih
    simp only [sendEventToClients, List.filterMap_cons, List.filter_cons]
    by_cases h : c.userId = u
    · simp [h, ih]
    · simp [h, ih]

/-- C5: fanning one event out over the registry writes exactly one frame to
each session tagged with the account — the sessions of other accounts receive
nothing — and each frame is the JSON object
`\x7b id, device, amount, status, timestamp \x7d` as one `data: ...` line
terminated by a blank line. -/
theorem sendEventToClients_fan_out_exact (accountId id device : String)
    (amount : Int) (status timestamp : String) (clients : List Client) :
    sendEventToClients accountId
        (dashboardJson id device amount status timestamp) clients =
      (clients.filter fun c => c.userId == accountId).map fun c =>
        (c.id, "data: " ++ dashboardJson id device amount status timestamp ++ "\n\n") := by
  rw [sendEventToClients_eq_filter_map]
  rfl

/-! Claim C6: the MQTT publish. -/

/-- C6: for a successfully persisted new transaction event with the MQTT client
configured and connected, exactly one message is published, to the topic
`/HMZN/` followed by the device identifier, with body
`JSON.stringify(\x7b request_id, money \x7d)` and qos 1; concretely,
`mqttMessage "tx-1" 15000` is the claimed body for the tx-1 scenario. -/
theorem notify_publish_topic_qos (inp : NotifyInput) (uid : String)
    (he : inp.eventType = "transaction.completed")
    (hd : lookupDevice inp.devices (jsOr inp.terminalId "dispositivo_desconocido") = some uid)
    (hfresh : ∀ r ∈ inp.ledger, r.request_id ≠ jsOr inp.dataId (toString inp.now))
    (hsf : inp.storageFails = false)
    (hc : inp.mqttConfigured = true) (hk : inp.mqttConnected = true) :
    (notify inp).ledger = inp.ledger ++
      [{ user_id := uid,
         device_serial_number := jsOr inp.terminalId "dispositivo_desconocido",
         amount := inp.amount,
         request_id := jsOr inp.dataId (toString inp.now),
         status := "Completada" }] ∧
    (notify inp).publishes =
      [{ topic := "/HMZN/" ++ jsOr inp.terminalId "dispositivo_desconocido",
         payload := mqttMessage (jsOr inp.dataId (toString inp.now)) inp.amount,
         qos := 1 }] ∧
    mqttMessage "tx-1" 15000 = "\x7b\"request_id\":\"tx-1\",\"money\":\"15000\"\x7d" := by
  rw [notify_known_device inp uid he hd, hsf, insertTransaction_fresh _ _ hfresh]
  refine ⟨rfl, by simp [hc, hk], by decide⟩

/-- Concrete input for the C6 witness: the spec's tx-1 scenario with an empty
ledger and a connected MQTT client. -/
def freshTxInput : NotifyInput :=
  { eventType := "transaction.completed", dataId := some "tx-1", amount := 15000,
    terminalId := some "DEV-001",
    devices := [{ serial_number := "DEV-001", user_id := "A1" }],
    ledger := [], storageFails := false,
    clients := [{ id := 7, userId := "A1" }],
    mqttConfigured := true, mqttConnected := true,
    now := 1000, nowLocale := "ts" }

/-- C6 witness: the tx-1 / DEV-001 / 15000 event yields one publish to
/HMZN/DEV-001 with the claimed body and qos 1. -/
theorem notify_publish_topic_qos_witness :
    freshTxInput.eventType = "transaction.completed" ∧
    lookupDevice freshTxInput.devices
      (jsOr freshTxInput.terminalId "dispositivo_desconocido") = some "A1" ∧
    freshTxInput.storageFails = false ∧
    ((notify freshTxInput).ledger = freshTxInput.ledger ++
      [{ user_id := "A1", device_serial_number := "DEV-001", amount := 15000,
         request_id := "tx-1", status := "Completada" }] ∧
     (notify freshTxInput).publishes =
      [{ topic := "/HMZN/DEV-001",
         payload := "\x7b\"request_id\":\"tx-1\",\"money\":\"15000\"\x7d",
         qos := 1 }] ∧
     mqttMessage "tx-1" 15000 = "\x7b\"request_id\":\"tx-1\",\"money\":\"15000\"\x7d") :=
  ⟨rfl, by decide, rfl,
   notify_publish_topic_qos freshTxInput "A1" rfl (by decide) (by decide) rfl rfl rfl⟩

/-! Claim C8: synthesized request identifier. -/

/-- C8: when `data.id` is absent (or the empty string, the only falsy string),
the request identifier becomes `new Date().getTime().toString()` — the receipt
time in milliseconds as a decimal string — and that same value is the
`request_id` of the ledger record, the `id` of the dashboard push object and
the `request_id` of the MQTT message body. -/
theorem notify_synthesized_request_id (inp : NotifyInput) (uid : String)
    (he : inp.eventType = "transaction.completed")
    (hid : inp.dataId = none ∨ inp.dataId = some "")
    (hd : lookupDevice inp.devices (jsOr inp.terminalId "dispositivo_desconocido") = some uid)
    (hfresh : ∀ r ∈ inp.ledger, r.request_id ≠ toString inp.now)
    (hsf : inp.storageFails = false) :
    (notify inp).ledger = inp.ledger ++
      [{ user_id := uid,
         device_serial_number := jsOr inp.terminalId "dispositivo_desconocido",
         amount := inp.amount,
         request_id := toString inp.now,
         status := "Completada" }] ∧
    (notify inp).pushes = sendEventToClients uid
      (dashboardJson (toString inp.now)
        (jsOr inp.terminalId "dispositivo_desconocido") inp.amount
        "Completada" inp.nowLocale) inp.clients ∧
    (notify inp).publishes =
      (if inp.mqttConfigured && inp.mqttConnected then
        [{ topic := "/HMZN/" ++ jsOr inp.terminalId "dispositivo_desconocido",
           payload := mqttMessage (toString inp.now) inp.amount, qos := 1 }]
      else []) := by
  have hfb := jsOr_falsy inp.dataId (toString inp.now) hid
  rw [notify_known_device inp uid he hd, hfb, hsf,
    insertTransaction_fresh _ _ hfresh]
  exact ⟨rfl, rfl, rfl⟩

/-- Concrete input for the C8 witness: the tx-1 scenario without `data.id`,
received at millisecond 1730000000000. -/
def noIdInput : NotifyInput :=
  { eventType := "transaction.completed", dataId := none, amount := 15000,
    terminalId := some "DEV-001",
    devices := [{ serial_number := "DEV-001", user_id := "A1" }],
    ledger := [], storageFails := false,
    clients := [{ id := 7, userId := "A1" }],
    mqttConfigured := true, mqttConnected := true,
    now := 1730000000000, nowLocale := "ts" }

/-- C8 witness: the synthesized identifier "1730000000000" appears in the
ledger record, the dashboard push and the MQTT body alike. -/
theorem notify_synthesized_request_id_witness :
    noIdInput.dataId = none ∧
    ((notify noIdInput).ledger = noIdInput.ledger ++
      [{ user_id := "A1", device_serial_number := "DEV-001", amount := 15000,
         request_id := "1730000000000", status := "Completada" }] ∧
     (notify noIdInput).pushes = sendEventToClients "A1"
       (dashboardJson "1730000000000" "DEV-001" 15000 "Completada" "ts")
       noIdInput.clients ∧
     (notify noIdInput).publishes =
       [{ topic := "/HMZN/DEV-001",
          payload := mqttMessage "1730000000000" 15000, qos := 1 }]) :=
  ⟨rfl,
   notify_synthesized_request_id noIdInput "A1" rfl (Or.inl rfl) (by decide)
     (by decide) rfl⟩

/-! Claim C10: MQTT client not configured or not connected. -/

/-- C10: when the MQTT client is not configured or not connected, the handler
makes no publish attempt at all, while the ledger insert and the dashboard
fan-out still take place and the event is acknowledged with 200. -/
theorem notify_mqtt_unavailable_no_publish (inp : NotifyInput) (uid : String)
    (he : inp.eventType = "transaction.completed")
    (hd : lookupDevice inp.devices (jsOr inp.terminalId "dispositivo_desconocido") = some uid)
    (hm : inp.mqttConfigured = false ∨ inp.mqttConnected = false)
    (hfresh : ∀ r ∈ inp.ledger, r.request_id ≠ jsOr inp.dataId (toString inp.now))
    (hsf : inp.storageFails = false) :
    (notify inp).publishes = [] ∧
    (notify inp).status = 200 ∧
    (notify inp).ledger = inp.ledger ++
      [{ user_id := uid,
         device_serial_number := jsOr inp.terminalId "dispositivo_desconocido",
         amount := inp.amount,
         request_id := jsOr inp.dataId (toString inp.now),
         status := "Completada" }] ∧
    (notify inp).pushes = sendEventToClients uid
      (dashboardJson (jsOr inp.dataId (toString inp.now))
        (jsOr inp.terminalId "dispositivo_desconocido") inp.amount
        "Completada" inp.nowLocale) inp.clients := by
  have hmb : (inp.mqttConfigured && inp.mqttConnected) = false := by
    rcases hm with h | h <;> simp [h]
  rw [notify_known_device inp uid he hd, hsf, insertTransaction_fresh _ _ hfresh]
  exact ⟨by simp [hmb], rfl, rfl, rfl⟩

/-- Concrete input for the C10 witness: MQTT configured but disconnected. -/
def mqttDownInput : NotifyInput :=
  { eventType := "transaction.completed", dataId := some "tx-3", amount := 200,
    terminalId := some "DEV-001",
    devices := [{ serial_number := "DEV-001", user_id := "A1" }],
    ledger := [], storageFails := false,
    clients := [{ id := 7, userId := "A1" }],
    mqttConfigured := true, mqttConnected := false,
    now := 1000, nowLocale := "ts" }

/-- C10 witness: with the MQTT client disconnected no publish is issued, yet
the record is inserted and the dashboard push still happens. -/
theorem notify_mqtt_unavailable_no_publish_witness :
    mqttDownInput.mqttConnected = false ∧
    ((notify mqttDownInput).publishes = [] ∧
     (notify mqttDownInput).status = 200 ∧
     (notify mqttDownInput).ledger = mqttDownInput.ledger ++
      [{ user_id := "A1", device_serial_number := "DEV-001", amount := 200,
         request_id := "tx-3", status := "Completada" }] ∧
     (notify mqttDownInput).pushes = sendEventToClients "A1"
       (dashboardJson "tx-3" "DEV-001" 200 "Completada" "ts")
       mqttDownInput.clients) :=
  ⟨rfl,
   notify_mqtt_unavailable_no_publish mqttDownInput "A1" rfl (by decide)
     (Or.inr rfl) (by decide) rfl⟩

/-! Claim C9: session handles are wall-clock millisecond timestamps. -/

/-- C9: the handle of a dashboard session is `Date.now()` at registration, and
close-time cleanup removes every registry entry whose handle equals the closing
connection's handle.  If two sessions were registered within the same
millisecond (same handle `t`), closing either removes both, and afterwards no
fan-out push targets handle `t` — the still-open connection receives nothing. -/
theorem events_shared_handle_unregister_both (clients : List Client) (t : Nat)
    (u1 u2 : String) (h : ∀ c ∈ clients, c.id ≠ t) :
    eventsClose (eventsRegister (eventsRegister clients t u1) t u2) t = clients ∧
    ∀ u d p, p ∈ sendEventToClients u d
        (eventsClose (eventsRegister (eventsRegister clients t u1) t u2) t) →
      p.1 ≠ t := by
  have hall : ∀ c ∈ clients, (c.id != t) = true := fun c hc => by
    simpa [bne_iff_ne] using h c hc
  have h1 : eventsClose (eventsRegister (eventsRegister clients t u1) t u2) t
      = clients := by
    simp only [eventsClose, eventsRegister, List.append_assoc, List.filter_append]
    rw [List.filter_eq_self.mpr hall]
    simp
  refine ⟨h1, ?_⟩
  intro u d p hp
  rw [h1] at hp
  simp only [sendEventToClients, List.mem_filterMap] at hp
  obtain ⟨c, hc, hcp⟩ := hp
  by_cases hcu : c.userId = u
  · rw [if_pos hcu] at hcp
    simp only [Option.some.injEq] at hcp
    rw [← hcp]
    exact h c hc
  · rw [if_neg hcu] at hcp
    exact Option.noConfusion hcp

/-- C9 witness: registering two sessions with handle 9 and closing one removes
both, leaving only the pre-existing session with handle 5. -/
theorem events_shared_handle_unregister_both_witness :
    (∀ c ∈ [Client.mk 5 "A1"], c.id ≠ 9) ∧
    eventsClose (eventsRegister (eventsRegister [Client.mk 5 "A1"] 9 "A1") 9 "A1") 9
      = [Client.mk 5 "A1"] :=
  ⟨by decide,
   (events_shared_handle_unregister_both [Client.mk 5 "A1"] 9 "A1" "A1" (by decide)).1⟩

end Breb
